import Mathlib

/-!
Shallow embedding of the diagnostic-spreadsheet pipeline in `src/api/index.py`
(functions `calc_lab`, `attention_index`, `categorize`, `extract_town`,
`sort_key_town` and the data-processing part of `process_excel`), together
with theorems settling the specification claims about it.

Modelling conventions:
* a spreadsheet cell / Python value is a `Cell`; floating-point numbers are
  modelled as exact rationals, with the pandas missing value `NaN` as an
  explicit constructor (`Cell.nan`) and Python `None` as `Cell.none`;
* Python `float(x)` / `int(x)` become `pyFloat` / `pyInt`, returning `none`
  exactly when the Python call raises; the string fragment they accept is
  the plain decimal fragment (no exponents, no "inf"/"nan" spellings),
  which covers every value the claims mention;
* a numeric value that may be `NaN` (the result of pandas arithmetic) is a
  `FloatV`; arithmetic on `FloatV` propagates `NaN` and comparisons with
  `NaN` are false, as in IEEE/pandas semantics;
* `round(x, 2)` / pandas `.round(2)` become `round2`, rounding half to even
  (the host rounding of both Python and numpy);
* the strings of the source are the intended UTF-8 Russian literals.
-/

/-- A spreadsheet cell / Python scalar as seen by the scoring code. -/
inductive Cell where
  | none
  | nan
  | num (q : ℚ)
  | str (s : String)
deriving DecidableEq, Repr

/-- A float value that may be NaN (result of pandas arithmetic). -/
inductive FloatV where
  | nan
  | fin (q : ℚ)
deriving DecidableEq, Repr

/-- The three qualitative levels returned by `categorize`:
`below` = "ниже нормативного", `norm` = "нормативный",
`above` = "выше нормативного". -/
inductive Level where
  | below
  | norm
  | above
deriving DecidableEq, Repr

/-- Errors raised while scoring/aggregating a table (after filename
validation): a `KeyError` from direct subscription of a missing column, or
a `TypeError` from arithmetic on a non-numeric column. -/
inductive RowErr where
  | keyError (col : String)
  | typeError (col : String)
deriving DecidableEq, Repr

/-- Errors raised by the pipeline entry point: the `ValueError` of filename
validation, or an error from the scoring stage. -/
inductive PyErr where
  | valueError (msg : String)
  | rowErr (e : RowErr)
deriving DecidableEq, Repr

/-- Whitespace, as stripped by Python `str.strip()` (ASCII fragment). -/
def isPySpace (c : Char) : Bool :=
  c = ' ' || c = '\t' || c = '\n' || c = '\r'

/-- `str.strip()` on a character list. -/
def stripChars (cs : List Char) : List Char :=
  ((cs.dropWhile isPySpace).reverse.dropWhile isPySpace).reverse

/-- `str.strip()`. -/
def pyStrip (s : String) : String := ⟨stripChars s.data⟩

/-- String equality through the underlying character lists. -/
def strEq (a b : String) : Bool := decide (a.data = b.data)

/-- Decimal digits to a natural number. -/
def digitsToNat (cs : List Char) : ℕ :=
  cs.foldl (fun n c => 10 * n + (c.toNat - 48)) 0

/-- An unsigned run of decimal digits (at least one). -/
def parseNatDigits (cs : List Char) : Option ℕ :=
  if cs ≠ [] ∧ cs.all Char.isDigit then some (digitsToNat cs) else none

/-- The integer literals accepted by Python `int(str)` (after stripping):
an optional sign followed by digits. -/
def parseIntChars (cs : List Char) : Option ℤ :=
  match cs with
  | '-' :: rest => (parseNatDigits rest).map (fun n => -(n : ℤ))
  | '+' :: rest => (parseNatDigits rest).map (fun n => (n : ℤ))
  | _ => (parseNatDigits cs).map (fun n => (n : ℤ))

/-- An unsigned decimal float literal: `digits`, `digits.digits`,
`digits.` or `.digits`. -/
def parseUFloat (cs : List Char) : Option ℚ :=
  let intPart := cs.takeWhile Char.isDigit
  let rest := cs.drop intPart.length
  match rest with
  | [] => if intPart = [] then none else some (digitsToNat intPart)
  | '.' :: fr =>
      if fr.all Char.isDigit ∧ (intPart ≠ [] ∨ fr ≠ []) then
        some ((digitsToNat intPart : ℚ) + (digitsToNat fr : ℚ) / (10 ^ fr.length))
      else none
  | _ => none

/-- A signed decimal float literal. -/
def parseFloatChars (cs : List Char) : Option ℚ :=
  match cs with
  | '-' :: rest => (parseUFloat rest).map Neg.neg
  | '+' :: rest => parseUFloat rest
  | _ => parseUFloat cs

/-- Model of Python `float(s)` on a string (decimal fragment). -/
def pyFloatOfString (s : String) : Option ℚ := parseFloatChars (stripChars s.data)

/-- Model of Python `int(s)` on a string. -/
def pyIntOfString (s : String) : Option ℤ := parseIntChars (stripChars s.data)

/-- Truncation toward zero, as in Python `int(float)`. -/
def ratTrunc (q : ℚ) : ℤ := if 0 ≤ q then ⌊q⌋ else ⌈q⌉

/-- Model of Python `float(x)` on a cell: `none` exactly when `float()`
raises. `float(None)` raises `TypeError`; a missing numeric cell is the
float `nan`, on which `float` succeeds. -/
def pyFloat : Cell → Option FloatV
  | Cell.none => none
  | Cell.nan => some FloatV.nan
  | Cell.num q => some (FloatV.fin q)
  | Cell.str s => (pyFloatOfString s).map FloatV.fin

/-- Model of Python `int(x)` on a cell: `none` exactly when `int()` raises
(`None`, `nan` and non-integer strings all raise). -/
def pyInt : Cell → Option ℤ
  | Cell.none => none
  | Cell.nan => none
  | Cell.num q => some (ratTrunc q)
  | Cell.str s => pyIntOfString s

namespace FloatV

/-- NaN-propagating addition. -/
def add : FloatV → FloatV → FloatV
  | fin a, fin b => fin (a + b)
  | _, _ => nan

/-- NaN-propagating multiplication by a constant. -/
def mulC (c : ℚ) : FloatV → FloatV
  | fin a => fin (c * a)
  | nan => nan

/-- NaN-propagating division by a constant. -/
def divC : FloatV → ℚ → FloatV
  | fin a, c => fin (a / c)
  | nan, _ => nan

/-- NaN-propagating subtraction. -/
def sub : FloatV → FloatV → FloatV
  | fin a, fin b => fin (a - b)
  | _, _ => nan

/-- `x > limit` with IEEE semantics: comparisons with NaN are false. -/
def gtC : FloatV → ℚ → Bool
  | fin a, c => decide (c < a)
  | nan, _ => false

/-- `x >= c` with IEEE semantics: comparisons with NaN are false. -/
def geC : FloatV → ℚ → Bool
  | fin a, c => decide (c ≤ a)
  | nan, _ => false

end FloatV

/-- Round to the nearest integer, ties to even (the rounding used by
Python's `round` and numpy's `.round`). -/
def rhe (x : ℚ) : ℤ :=
  if x - ⌊x⌋ < 1/2 then ⌊x⌋
  else if 1/2 < x - ⌊x⌋ then ⌊x⌋ + 1
  else if ⌊x⌋ % 2 = 0 then ⌊x⌋ else ⌊x⌋ + 1

/-- Model of `round(x, 2)` / pandas `.round(2)`. -/
def round2 (q : ℚ) : ℚ := (rhe (100 * q) : ℚ) / 100

/-- `round(x, 2)` lifted to possibly-NaN values (`round(nan, 2)` is `nan`). -/
def FloatV.round2F : FloatV → FloatV
  | FloatV.nan => FloatV.nan
  | FloatV.fin q => FloatV.fin (round2 q)

/-- The `reached` test of `calc_lab`:
`isinstance(reached, str) and reached.strip() == "Нет"`. -/
def reachedNo : Cell → Bool
  | Cell.str s => decide (stripChars s.data = "Нет".data)
  | _ => false

/-- Embedding of `calc_lab` (src/api/index.py lines 92-113): labyrinth
score from completion time, error count and the goal-reached flag, against
a time limit. -/
def calc_lab (time errors reached : Cell) (limit : ℚ) : ℕ :=
  match pyFloat time with
  | Option.none => 0
  | some t =>
    let e : ℤ := (pyInt errors).getD 0
    if reachedNo reached then 0
    else if FloatV.gtC t limit then 0
    else if e = 0 then 3
    else if e = 1 then 2
    else if 2 ≤ e ∧ e ≤ 5 then 1
    else 0

/-- Embedding of `attention_index` (lines 116-127):
`0.5*rings - (2.8*errors)/60`, each input coerced to 0 when `float()`
raises. -/
def attention_index (rings errors : Cell) : FloatV :=
  let r := (pyFloat rings).getD (FloatV.fin 0)
  let e := (pyFloat errors).getD (FloatV.fin 0)
  FloatV.sub (FloatV.mulC 0.5 r) (FloatV.divC (FloatV.mulC 2.8 e) 60)

/-- Embedding of `categorize` (lines 130-139). The code returns the strings
"ниже нормативного" / "нормативный" / "выше нормативного", modelled by the
`Level` enumeration; `pd.isna(value)` yields `None`. -/
def categorize : FloatV → Option Level
  | FloatV.nan => none
  | FloatV.fin v =>
      if v < 0.33 then some Level.below
      else if v ≤ 0.66 then some Level.norm
      else some Level.above

/-- Decimal rendering of a numeric cell under Python `str` as far as the
pipeline inspects it: an integral float prints with a trailing ".0"; no
numeric rendering ever contains a parenthesis. -/
def ratStr (q : ℚ) : String :=
  if q.den = 1 then toString q.num ++ ".0" else toString q

/-- Model of Python `str(x)` on a cell (`str(nan) = "nan"`). -/
def cellStr : Cell → String
  | Cell.str s => s
  | Cell.nan => "nan"
  | Cell.none => "None"
  | Cell.num q => ratStr q

/-- The first match of the regex `\((.*?)\)` in `re.search`: scanning left
to right, the first `(` that is followed by a `)` with no newline in
between; the captured group is the text between them. -/
def firstParenGroup : List Char → Option (List Char)
  | [] => none
  | '(' :: rest =>
      let inner := rest.takeWhile (fun c => c ≠ ')' && c ≠ '\n')
      match rest.drop inner.length with
      | ')' :: _ => some inner
      | _ => firstParenGroup rest
  | _ :: rest => firstParenGroup rest

/-- Embedding of `extract_town` (lines 142-147):
`re.search(r"\((.*?)\)", str(org_name))`, then `group(1).split(";")[0].strip()`,
`None` when the regex does not match. -/
def extract_town (orgName : Cell) : Option String :=
  match firstParenGroup (cellStr orgName).data with
  | Option.none => none
  | some g => some ⟨stripChars (g.takeWhile (fun c => c ≠ ';'))⟩

/-- `startswith` on character lists. -/
def startsChars : List Char → List Char → Bool
  | [], _ => true
  | _ :: _, [] => false
  | p :: ps, c :: cs => p = c && startsChars ps cs

/-- `name.startswith(p)`. -/
def pyStarts (p s : String) : Bool := startsChars p.data s.data

/-- Embedding of `sort_key_town` (lines 150-167); the argument is the town
column value, `none` for a missing (NaN) town. -/
def sort_key_town (name : Option String) : ℕ × String :=
  match name with
  | Option.none => (999, "")
  | some s0 =>
    let s := pyStrip s0
    if strEq s "г.Москва" then (0, s)
    else if pyStarts "г." s then (1, s)
    else if pyStarts "р.п." s || pyStarts "п." s || pyStarts "пос." s then (2, s)
    else if pyStarts "с." s then (3, s)
    else if pyStarts "д." s then (4, s)
    else if pyStarts "ст." s then (5, s)
    else (6, s)

/-- Embedding of the filename check `re.match(r'(\d+)-(\d+)', filename)`
(line 186): a maximal run of leading digits, a hyphen, a run of digits;
the two digit groups are returned. -/
def parseFilename (s : String) : Option (String × String) :=
  let a := s.data.takeWhile Char.isDigit
  if a = [] then none
  else
    match s.data.dropWhile Char.isDigit with
    | '-' :: rest =>
        let b := rest.takeWhile Char.isDigit
        if b = [] then none else some (⟨a⟩, ⟨b⟩)
    | _ => none

/-! ## Rows and the per-row scorer -/

/-- One spreadsheet row after column renaming: an association list from
normalised column names to cells. -/
abbrev Row := List (String × Cell)

/-- First-match association lookup. -/
def lookupCol : Row → String → Option Cell
  | [], _ => none
  | (k, v) :: rest, c => if strEq k c then some v else lookupCol rest c

/-- `row.get(c)` on a pandas row: Python `None` when the key is absent. -/
def getOpt (r : Row) (c : String) : Cell := (lookupCol r c).getD Cell.none

/-- `df[c]` followed by numeric arithmetic, restricted to one row:
`KeyError` when the column is absent, `TypeError` when the cell is
non-numeric, otherwise the float value (NaN for an empty cell). -/
def getReqF (r : Row) (c : String) : Except RowErr FloatV :=
  match lookupCol r c with
  | Option.none => Except.error (RowErr.keyError c)
  | some (Cell.str _) => Except.error (RowErr.typeError c)
  | some Cell.none => Except.error (RowErr.typeError c)
  | some Cell.nan => Except.ok FloatV.nan
  | some (Cell.num q) => Except.ok (FloatV.fin q)

/-- The finite (non-NaN) entries of a list of float values. -/
def finVals (l : List FloatV) : List ℚ :=
  l.filterMap (fun x => match x with | FloatV.fin q => some q | FloatV.nan => none)

/-- pandas `.mean(axis=1)`: the mean of the non-NaN entries, NaN when
every entry is NaN. -/
def nanmean (l : List FloatV) : FloatV :=
  if finVals l = [] then FloatV.nan
  else FloatV.fin ((finVals l).sum / (finVals l).length)

/-- `lambda v: 1 if v >= 6 else round(v / 6, 2)` (line 213). -/
def attnQuality (v : FloatV) : FloatV :=
  if FloatV.geC v 6 then FloatV.fin 1 else FloatV.round2F (FloatV.divC v 6)

/-- The derived per-child fields computed in lines 198-237 of
`process_excel` (one `ScoredRow` per spreadsheet row).  Field names
transliterate the derived column names: `p1`-`p5` are П1-П5,
`analitSint` is Аналит-Синт, `vnim1`-`vnim5` are Вним1-Вним5,
`sredVnim` is СредВним, `kachVnim` is "Качество внимания",
`svyazn`/`rechOform`/`samRass` the three criterion ratios,
`gotovUD` Готовн_УД, `logObob` Лог_обобщение, `pertsep` Перцепция,
`aktivnVnim` Активн_вниман, `analitSint2` Аналит_синт, `voobr`
Воображение, `identEmots` Идентиф_эмоций, `planir` Планирование,
`sotrud` Сотрудничество, `reflek` Рефлексия, `kognRazv` "Когнитивное
развитие", `voobrItog` Воображение_итог, `emSotsInt` ЭмСоцИнтеллект,
and the three `_уровень` level columns. -/
structure ScoredRow where
  p1 : ℕ
  p2 : ℕ
  p3 : ℕ
  p4 : ℕ
  p5 : ℕ
  analitSint : ℚ
  vnim1 : FloatV
  vnim2 : FloatV
  vnim3 : FloatV
  vnim4 : FloatV
  vnim5 : FloatV
  sredVnim : FloatV
  kachVnim : FloatV
  svyazn : FloatV
  rechOform : FloatV
  samRass : FloatV
  gotovUD : FloatV
  logObob : FloatV
  pertsep : FloatV
  aktivnVnim : FloatV
  analitSint2 : ℚ
  voobr : FloatV
  identEmots : FloatV
  planir : FloatV
  sotrud : FloatV
  reflek : FloatV
  kognRazv : FloatV
  voobrItog : FloatV
  emSotsInt : FloatV
  kognLevel : Option Level
  voobrLevel : Option Level
  emSotsLevel : Option Level
deriving DecidableEq, Repr

/-- The record of derived fields computed by the scoring stage (lines
198-237) once the twelve directly-subscripted columns have been read
(`a1 a2 a3` = И1-2Связн/РечОформ/СамРасс, `b1 b2 b4` = И1-1Сум/И2Сум/И4Сум,
`c1 c2` = В1/В2, `em pl so rf` = ЭмоцИдент/Планир/Сотруд/Рефлек); the
labyrinth and attention inputs are read with the lenient `row.get`. -/
def mkScored (r : Row) (a1 a2 a3 b1 b2 b4 c1 c2 em pl so rf : FloatV) : ScoredRow :=
  let p1 := calc_lab (getOpt r "И5-1Время") (getOpt r "И5-1Ошиб") (getOpt r "И5-1Дошел") 35
  let p2 := calc_lab (getOpt r "И5-2Время") (getOpt r "И5-2Ошиб") (getOpt r "И5-2Дошел") 35
  let p3 := calc_lab (getOpt r "И5-3Время") (getOpt r "И5-3Ошиб") (getOpt r "И5-3Дошел") 50
  let p4 := calc_lab (getOpt r "И5-4Время") (getOpt r "И5-4Ошиб") (getOpt r "И5-4Дошел") 65
  let p5 := calc_lab (getOpt r "И5-5Время") (getOpt r "И5-5Ошиб") (getOpt r "И5-5Дошел") 125
  let analit := round2 (((p1 + p2 + p3 + p4 + p5 : ℕ) : ℚ) / 5 / 3)
  let v1 := attention_index (getOpt r "И3-1Кольца") (getOpt r "И3-1Ошиб")
  let v2 := attention_index (getOpt r "И3-2Кольца") (getOpt r "И3-2Ошиб")
  let v3 := attention_index (getOpt r "И3-3Кольца") (getOpt r "И3-3Ошиб")
  let v4 := attention_index (getOpt r "И3-4Кольца") (getOpt r "И3-4Ошиб")
  let v5 := attention_index (getOpt r "И3-5Кольца") (getOpt r "И3-5Ошиб")
  let sred := nanmean [v1, v2, v3, v4, v5]
  let kach := attnQuality sred
  let svy := FloatV.round2F (FloatV.divC a1 5)
  let rech := FloatV.round2F (FloatV.divC a2 5)
  let sam := FloatV.round2F (FloatV.divC a3 5)
  let gotov := FloatV.round2F (FloatV.divC
    (FloatV.add (FloatV.divC b1 18)
      (FloatV.divC (FloatV.add (FloatV.add svy rech) sam) 3)) 2)
  let logO := FloatV.round2F (FloatV.divC b2 16)
  let perts := FloatV.round2F (FloatV.divC b4 11)
  let voobrV := FloatV.round2F (FloatV.divC
    (FloatV.add (FloatV.divC c1 3) (FloatV.divC c2 3)) 2)
  let ident := FloatV.round2F (FloatV.divC em 8)
  let plan := FloatV.round2F (FloatV.divC pl 4)
  let sotr := FloatV.round2F (FloatV.divC so 4)
  let refl := FloatV.round2F (FloatV.divC rf 4)
  let kogn := FloatV.round2F (FloatV.divC
    (FloatV.add (FloatV.add (FloatV.add (FloatV.add gotov kach) (FloatV.fin analit)) logO)
      perts) 5)
  let emsi := FloatV.round2F (FloatV.divC
    (FloatV.add ident (FloatV.divC (FloatV.add (FloatV.add plan sotr) refl) 3)) 2)
  {
    p1 := p1, p2 := p2, p3 := p3, p4 := p4, p5 := p5
    analitSint := analit
    vnim1 := v1, vnim2 := v2, vnim3 := v3, vnim4 := v4, vnim5 := v5
    sredVnim := sred, kachVnim := kach
    svyazn := svy, rechOform := rech, samRass := sam
    gotovUD := gotov, logObob := logO, pertsep := perts
    aktivnVnim := kach, analitSint2 := analit
    voobr := voobrV, identEmots := ident
    planir := plan, sotrud := sotr, reflek := refl
    kognRazv := kogn, voobrItog := voobrV, emSotsInt := emsi
    kognLevel := categorize kogn
    voobrLevel := categorize voobrV
    emSotsLevel := categorize emsi }

/-- Per-row embedding of the scoring stage (lines 198-237): the twelve
directly-subscripted columns are read in source order (each read raises on
a missing or non-numeric column), then every derived field is computed by
`mkScored`. -/
def scoreRow (r : Row) : Except RowErr ScoredRow := do
  let a1 ← getReqF r "И1-2Связн"
  let a2 ← getReqF r "И1-2РечОформ"
  let a3 ← getReqF r "И1-2СамРасс"
  let b1 ← getReqF r "И1-1Сум"
  let b2 ← getReqF r "И2Сум"
  let b4 ← getReqF r "И4Сум"
  let c1 ← getReqF r "В1"
  let c2 ← getReqF r "В2"
  let em ← getReqF r "ЭмоцИдент"
  let pl ← getReqF r "Планир"
  let so ← getReqF r "Сотруд"
  let rf ← getReqF r "Рефлек"
  pure (mkScored r a1 a2 a3 b1 b2 b4 c1 c2 em pl so rf)

/-! ## Aggregation tables -/

/-- One level-distribution table (lines 240-248):
`value_counts().reindex([3 levels], fill_value=0)` with
`Доля = count / len(df)`. -/
def levelTable (ls : List (Option Level)) : List (Level × ℕ × ℚ) :=
  [Level.below, Level.norm, Level.above].map
    (fun lv => (lv, ls.count (some lv), (ls.count (some lv) : ℚ) / ls.length))

/-- `pd.isna` on a cell. -/
def isNA : Cell → Bool
  | Cell.nan => true
  | Cell.none => true
  | _ => false

/-- `str.split()[0]`: the first whitespace-separated token, none when the
string has no token (the `IndexError` case). -/
def firstToken (cs : List Char) : Option (List Char) :=
  let t := (cs.dropWhile isPySpace).takeWhile (fun c => !isPySpace c)
  if t = [] then none else some t

/-- `int(str(text).split("-")[0].split()[0])`, none when it raises. -/
def ageParse (s : String) : Option ℤ :=
  match firstToken (s.data.takeWhile (fun ch => ch ≠ '-')) with
  | Option.none => none
  | some tok => parseIntChars tok

/-- Embedding of the age sort key `extract_age` (lines 263-267):
fallback 999 when parsing fails. -/
def extract_age (c : Cell) : ℤ := (ageParse (cellStr c)).getD 999

/-- Order on age rows: by the parsed leading integer of the label. -/
def ageLe (a b : Cell) : Prop := extract_age a ≤ extract_age b

instance : DecidableRel ageLe := fun a b => Int.decLe (extract_age a) (extract_age b)

instance : IsTotal Cell ageLe := ⟨fun a b => Int.le_total (extract_age a) (extract_age b)⟩

instance : IsTrans Cell ageLe := ⟨fun _ _ _ h1 h2 => le_trans h1 h2⟩

/-- Descending-count order used by `value_counts()`. -/
def cntGe (pres : List Cell) (a b : Cell) : Prop := pres.count b ≤ pres.count a

instance (pres : List Cell) : DecidableRel (cntGe pres) := fun _ _ => Nat.decLe _ _

instance (pres : List Cell) : IsTotal Cell (cntGe pres) :=
  ⟨fun a b => Nat.le_total (pres.count b) (pres.count a)⟩

instance (pres : List Cell) : IsTrans Cell (cntGe pres) :=
  ⟨fun _ _ _ h1 h2 => le_trans h2 h1⟩

/-- The age-distribution table (lines 259-269): `value_counts()` over the
non-missing labels of the Возраст column (descending by count), a
percentage column dividing by the sum of the counts, then a stable sort by
`extract_age`. -/
def ageTable (ages : List Cell) : List (Cell × ℕ × ℚ) :=
  let pres := ages.filter (fun c => !isNA c)
  let rows := List.insertionSort ageLe (List.insertionSort (cntGe pres) pres.dedup)
  rows.map (fun L => (L, pres.count L, (pres.count L : ℚ) / pres.length))

/-- Codepoint-lexicographic order on character lists (Python string `<=`). -/
def lexLe : List Char → List Char → Bool
  | [], _ => true
  | _ :: _, [] => false
  | a :: as, b :: bs =>
    if a.toNat < b.toNat then true
    else if b.toNat < a.toNat then false
    else lexLe as bs

/-- The order induced by `sort_key_town` tuples under Python tuple
comparison: first by rank, then lexically by the stripped name. -/
def townKeyLe (a b : String) : Bool :=
  decide ((sort_key_town (some a)).1 < (sort_key_town (some b)).1) ||
    (decide ((sort_key_town (some a)).1 = (sort_key_town (some b)).1) &&
      lexLe (sort_key_town (some a)).2.data (sort_key_town (some b)).2.data)

def townLe (a b : String) : Prop := townKeyLe a b = true

instance : DecidableRel townLe := fun _ _ => instDecidableEqBool _ _

/-- The distinct towns extracted from the organisation column (the
groupby keys; rows with no extracted town are dropped). -/
def townList (orgs : List Cell) : List String := (orgs.filterMap extract_town).dedup

/-- `nunique()` of organisation names within one town group. -/
def orgCount (orgs : List Cell) (t : String) : ℕ :=
  ((orgs.filter (fun c => extract_town c = some t)).dedup).length

/-- The town-summary rows (lines 271-276): one row per extracted town,
with its distinct-organisation count, sorted by `sort_key_town`. -/
def townRows (orgs : List Cell) : List (String × ℕ) :=
  (List.insertionSort townLe (townList orgs)).map (fun t => (t, orgCount orgs t))

/-- The town-summary table with the appended Итого row (lines 277-281). -/
def towns_with_total (orgs : List Cell) : List (String × ℕ) :=
  townRows orgs ++ [("Итого", ((townRows orgs).map Prod.snd).sum)]

/-! ## The pipeline entry point -/

/-- `df[c]` at table level: the column's cells, `KeyError` when absent. -/
def getColumn (t : List Row) (c : String) : Except RowErr (List Cell) :=
  t.mapM (fun r =>
    match lookupCol r c with
    | some v => Except.ok v
    | Option.none => Except.error (RowErr.keyError c))

/-- The summary tables built by `process_excel` that the claims concern. -/
structure Tables where
  scored : List ScoredRow
  levelKogn : List (Level × ℕ × ℚ)
  levelVoobr : List (Level × ℕ × ℚ)
  levelEmSots : List (Level × ℕ × ℚ)
  ages : List (Cell × ℕ × ℚ)
  towns : List (String × ℕ)
deriving Repr

/-- The scoring and aggregation stages of `process_excel` (lines 193-281),
after filename validation. -/
def runPipeline (t : List Row) : Except RowErr Tables := do
  let scored ← t.mapM scoreRow
  let ages ← getColumn t "Возраст"
  let orgs ← getColumn t "Организация"
  pure {
    scored := scored
    levelKogn := levelTable (scored.map ScoredRow.kognLevel)
    levelVoobr := levelTable (scored.map ScoredRow.voobrLevel)
    levelEmSots := levelTable (scored.map ScoredRow.emSotsLevel)
    ages := ageTable ages
    towns := towns_with_total orgs }

/-- The `ValueError` message of filename validation (line 188). -/
def badNameMsg : String :=
  "Неверный формат имени файла. Ожидается: \x7bплощадка\x7d-\x7bдиагностика\x7d-*.xlsx"

/-- Embedding of `process_excel` (lines 170-390, data content only):
validate the filename before touching any data, then run the pipeline;
the suggested output filename encodes the two filename groups. -/
def process_excel (filename : String) (t : List Row) : Except PyErr (Tables × String) :=
  match parseFilename filename with
  | Option.none => Except.error (PyErr.valueError badNameMsg)
  | some (p, d) =>
      match runPipeline t with
      | Except.error e => Except.error (PyErr.rowErr e)
      | Except.ok tabs => Except.ok (tabs, "Аналитика_" ++ p ++ "-" ++ d ++ ".xlsx")


/-! ## Claim-side definitions and witness fixtures -/

/-- The error-count component of the labyrinth score as the specification
states it: 3 for 0 errors, 2 for 1 error, 1 for 2-5 errors, otherwise 0. -/
def errPoints (e : ℤ) : ℕ :=
  if e = 0 then 3 else if e = 1 then 2 else if 2 ≤ e ∧ e ≤ 5 then 1 else 0

/-- The filename contract as the specification states it: the name begins
with a nonempty group of digits, a hyphen, and a nonempty group of digits
(the prefix regex `(\d+)-(\d+)`). -/
def fnamePatternSpec (s : String) : Prop :=
  ∃ a b rest : List Char, s.data = a ++ '-' :: (b ++ rest) ∧ a ≠ [] ∧ b ≠ [] ∧
    (∀ c ∈ a, c.isDigit = true) ∧ (∀ c ∈ b, c.isDigit = true)

/-- The twelve normalised columns the scoring stage reads by direct
subscription (lines 216-230). -/
def requiredColumns : List String :=
  ["И1-2Связн", "И1-2РечОформ", "И1-2СамРасс", "И1-1Сум", "И2Сум", "И4Сум",
   "В1", "В2", "ЭмоцИдент", "Планир", "Сотруд", "Рефлек"]

/-- The value set of `COLUMN_MAPPING` (lines 41-89): every normalised
column name of the static rename table. -/
def mappingValues : List String :=
  ["ID", "Время", "Организация", "Код", "Согласие_обслед", "Согласие_ПД",
   "Возраст", "Возраст_ввод", "И1-1Сум", "И1-2Связн", "И1-2РечОформ",
   "И1-2СамРасс", "И2Сум", "И3-1Кольца", "И3-1Ошиб", "И3-2Кольца",
   "И3-2Ошиб", "И3-3Кольца", "И3-3Ошиб", "И3-4Кольца", "И3-4Ошиб",
   "И3-5Кольца", "И3-5Ошиб", "И4Сум", "И5-1Время", "И5-1Ошиб", "И5-1Дошел",
   "И5-2Время", "И5-2Ошиб", "И5-2Дошел", "И5-3Время", "И5-3Ошиб",
   "И5-3Дошел", "И5-4Время", "И5-4Ошиб", "И5-4Дошел", "И5-5Время",
   "И5-5Ошиб", "И5-5Дошел", "В1", "В2", "В3_фото", "ЭмоцИдент", "Планир",
   "Сотруд", "Рефлек", "Примеч"]

/-- A concrete row whose twelve required columns are present but empty:
scoring succeeds on it and every composite is NaN. -/
def row0 : Row :=
  [("И1-2Связн", Cell.nan), ("И1-2РечОформ", Cell.nan), ("И1-2СамРасс", Cell.nan),
   ("И1-1Сум", Cell.nan), ("И2Сум", Cell.nan), ("И4Сум", Cell.nan),
   ("В1", Cell.nan), ("В2", Cell.nan), ("ЭмоцИдент", Cell.nan),
   ("Планир", Cell.nan), ("Сотруд", Cell.nan), ("Рефлек", Cell.nan),
   ("И3-1Кольца", Cell.nan), ("И3-1Ошиб", Cell.nan)]

/-- The scored record of `row0`. -/
def sr0 : ScoredRow :=
  mkScored row0 FloatV.nan FloatV.nan FloatV.nan FloatV.nan FloatV.nan FloatV.nan
    FloatV.nan FloatV.nan FloatV.nan FloatV.nan FloatV.nan FloatV.nan

/-! ## Sanity examples -/

example : calc_lab (Cell.num 10) (Cell.num 0) (Cell.str "Да") 35 = 3 := by decide
example : calc_lab (Cell.num 10) (Cell.num 1) (Cell.str "Да") 35 = 2 := by decide
example : calc_lab (Cell.num 10) (Cell.num 3) (Cell.str "Да") 35 = 1 := by decide
example : calc_lab (Cell.num 10) (Cell.num 6) (Cell.str "Да") 35 = 0 := by decide
example : calc_lab (Cell.num 40) (Cell.num 0) (Cell.str "Да") 35 = 0 := by decide
example : calc_lab (Cell.num 10) (Cell.num 0) (Cell.str "Нет") 35 = 0 := by decide
example : calc_lab (Cell.str "abc") (Cell.num 0) (Cell.str "Да") 35 = 0 := by decide
example : calc_lab Cell.none (Cell.num 0) (Cell.str "Да") 35 = 0 := by decide
example : calc_lab Cell.nan Cell.nan Cell.nan 35 = 3 := by decide
example : extract_town (Cell.str "Школа №3 (г.Казань)") = some "г.Казань" := by decide
example : extract_town (Cell.str "Сад (с. Ивановка; р-н X) два") = some "с. Ивановка" := by
  decide
example : extract_town (Cell.str "Школа №3") = none := by decide
example : sort_key_town (some "г.Москва") = (0, "г.Москва") := by decide
example : sort_key_town (some "г. Москва") = (1, "г. Москва") := by decide
example : sort_key_town (some "ст.Каневская") = (5, "ст.Каневская") := by decide
example : sort_key_town (some "с.Ивановка") = (3, "с.Ивановка") := by decide
example : parseFilename "5-31-Razvitie.xlsx" = some ("5", "31") := by decide
example : parseFilename "bad.xlsx" = none := by decide
example : pyFloatOfString " 12.5 " = some (12 + 5 / 10) := by
  have h : pyFloatOfString " 12.5 " =
      some ((digitsToNat ['1', '2'] : ℚ) + (digitsToNat ['5'] : ℚ) / 10 ^ (1 : ℕ)) := rfl
  have d1 : digitsToNat ['1', '2'] = 12 := by decide
  have d2 : digitsToNat ['5'] = 5 := by decide
  rw [h, d1, d2]
  norm_num
example : pyFloatOfString "abc" = none := by decide
example : pyIntOfString " 31 " = some 31 := by decide
example : pyIntOfString "3.5" = none := by decide

example : scoreRow [] = Except.error (RowErr.keyError "И1-2Связн") := rfl

/-! ## Helper lemmas -/

theorem exceptBind_ok {ε α β : Type} (x : Except ε α) (f : α → Except ε β) (b : β) :
    (x >>= f) = Except.ok b ↔ ∃ a, x = Except.ok a ∧ f a = Except.ok b := by
  cases x <;> simp [Bind.bind, Except.bind]

theorem scoreRow_ok_elim (r : Row) (sr : ScoredRow) (h : scoreRow r = Except.ok sr) :
    ∃ a1 a2 a3 b1 b2 b4 c1 c2 em pl so rf,
      getReqF r "И1-2Связн" = Except.ok a1 ∧
      getReqF r "И1-2РечОформ" = Except.ok a2 ∧
      getReqF r "И1-2СамРасс" = Except.ok a3 ∧
      getReqF r "И1-1Сум" = Except.ok b1 ∧
      getReqF r "И2Сум" = Except.ok b2 ∧
      getReqF r "И4Сум" = Except.ok b4 ∧
      getReqF r "В1" = Except.ok c1 ∧
      getReqF r "В2" = Except.ok c2 ∧
      getReqF r "ЭмоцИдент" = Except.ok em ∧
      getReqF r "Планир" = Except.ok pl ∧
      getReqF r "Сотруд" = Except.ok so ∧
      getReqF r "Рефлек" = Except.ok rf ∧
      sr = mkScored r a1 a2 a3 b1 b2 b4 c1 c2 em pl so rf := by
  simp only [scoreRow, exceptBind_ok, pure, Except.pure, Except.ok.injEq] at h
  obtain ⟨a1, h1, a2, h2, a3, h3, b1, h4, b2, h5, b4, h6, c1, h7, c2, h8, em, h9,
    pl, h10, so, h11, rf, h12, hsr⟩ := h
  exact ⟨a1, a2, a3, b1, b2, b4, c1, c2, em, pl, so, rf, h1, h2, h3, h4, h5, h6,
    h7, h8, h9, h10, h11, h12, hsr.symm⟩

theorem scoreRow_err_first (r : Row) (h : lookupCol r "И1-2Связн" = none) :
    scoreRow r = Except.error (RowErr.keyError "И1-2Связн") := by
  have hg : getReqF r "И1-2Связн" = Except.error (RowErr.keyError "И1-2Связн") := by
    unfold getReqF
    rw [h]
  simp [scoreRow, hg, Bind.bind, Except.bind]

theorem rhe_nonneg {x : ℚ} (hx : 0 ≤ x) : 0 ≤ rhe x := by
  have h0 : (0 : ℤ) ≤ ⌊x⌋ := Int.floor_nonneg.mpr hx
  unfold rhe
  split_ifs <;> omega

theorem rhe_le_of_le {x : ℚ} {n : ℤ} (hx : x ≤ n) : rhe x ≤ n := by
  have hf : ⌊x⌋ ≤ n := by
    have := Int.floor_le_floor hx
    simpa using this
  have hfx : (⌊x⌋ : ℚ) ≤ x := Int.floor_le x
  unfold rhe
  split_ifs with h1 h2 h3
  · exact hf
  · have hlt : (⌊x⌋ : ℚ) < (n : ℚ) - 1/2 := by linarith
    have : (⌊x⌋ : ℚ) < (n : ℚ) := by linarith
    have h4 : ⌊x⌋ < n := by exact_mod_cast this
    omega
  · exact hf
  · have heq : x - ⌊x⌋ = 1/2 := le_antisymm (not_lt.mp h2) (not_lt.mp h1)
    have hlt : (⌊x⌋ : ℚ) ≤ (n : ℚ) - 1/2 := by linarith
    have : (⌊x⌋ : ℚ) < (n : ℚ) := by linarith
    have h5 : ⌊x⌋ < n := by exact_mod_cast this
    omega

theorem round2_nonneg {q : ℚ} (h : 0 ≤ q) : 0 ≤ round2 q := by
  unfold round2
  have : (0 : ℤ) ≤ rhe (100 * q) := rhe_nonneg (by linarith)
  have : (0 : ℚ) ≤ (rhe (100 * q) : ℚ) := by exact_mod_cast this
  positivity

theorem round2_le_one {q : ℚ} (h : q ≤ 1) : round2 q ≤ 1 := by
  unfold round2
  have h100 : (100 : ℚ) * q ≤ ((100 : ℤ) : ℚ) := by push_cast; linarith
  have := rhe_le_of_le h100
  have hc : (rhe (100 * q) : ℚ) ≤ (100 : ℚ) := by exact_mod_cast this
  linarith

theorem sum_map_div (l : List ℚ) (c : ℚ) : (l.map (fun x => x / c)).sum = l.sum / c := by
  induction l with
  | nil => simp
  | cons a t ih => simp [ih, add_div]

theorem count_levels (ls : List (Option Level)) :
    ls.count (some Level.below) + ls.count (some Level.norm) + ls.count (some Level.above)
      = (ls.filterMap id).length := by
  induction ls with
  | nil => simp
  | cons h t ih =>
      rcases h with _ | lv
      · simpa [List.count_cons] using ih
      · cases lv <;> simp [List.count_cons, ih] <;> omega

theorem lexLe_total (as bs : List Char) : lexLe as bs = true ∨ lexLe bs as = true := by
  induction as generalizing bs with
  | nil => left; rfl
  | cons a as ih =>
      cases bs with
      | nil => right; rfl
      | cons b bs =>
          rcases Nat.lt_trichotomy a.toNat b.toNat with h | h | h
          · left; simp [lexLe, h]
          · have hab : ¬ a.toNat < b.toNat := by omega
            have hba : ¬ b.toNat < a.toNat := by omega
            rcases ih bs with hl | hl
            · left; simp [lexLe, hab, hba, hl]
            · right; simp [lexLe, hab, hba, hl]
          · right; simp [lexLe, h]

theorem lexLe_trans : ∀ as bs cs : List Char,
    lexLe as bs = true → lexLe bs cs = true → lexLe as cs = true := by
  intro as
  induction as with
  | nil => intro bs cs _ _; rfl
  | cons a as ih =>
      intro bs cs h1 h2
      cases bs with
      | nil => simp [lexLe] at h1
      | cons b bs =>
          cases cs with
          | nil => simp [lexLe] at h2
          | cons c cs =>
              simp only [lexLe] at h1 h2 ⊢
              by_cases hab : a.toNat < b.toNat
              · by_cases hbc : b.toNat < c.toNat
                · have : a.toNat < c.toNat := by omega
                  simp [this]
                · by_cases hcb : c.toNat < b.toNat
                  · simp [hbc, hcb] at h2
                  · have : a.toNat < c.toNat := by omega
                    simp [this]
              · by_cases hba : b.toNat < a.toNat
                · simp [hab, hba] at h1
                · simp [hab, hba] at h1
                  by_cases hbc : b.toNat < c.toNat
                  · have : a.toNat < c.toNat := by omega
                    simp [this]
                  · by_cases hcb : c.toNat < b.toNat
                    · simp [hbc, hcb] at h2
                    · simp [hbc, hcb] at h2
                      have hac : ¬ a.toNat < c.toNat := by omega
                      have hca : ¬ c.toNat < a.toNat := by omega
                      simp [hac, hca]
                      exact ih bs cs h1 h2

theorem townLe_total : ∀ a b : String, townLe a b ∨ townLe b a := by
  intro a b
  unfold townLe townKeyLe
  rcases Nat.lt_trichotomy (sort_key_town (some a)).1 (sort_key_town (some b)).1 with h | h | h
  · left; simp [h]
  · rcases lexLe_total (sort_key_town (some a)).2.data (sort_key_town (some b)).2.data with
      hl | hl
    · left; simp [h, hl]
    · right; simp [h.symm, hl]
  · right; simp [h]

theorem townLe_trans : ∀ a b c : String, townLe a b → townLe b c → townLe a c := by
  intro a b c h1 h2
  unfold townLe townKeyLe at h1 h2 ⊢
  simp only [Bool.or_eq_true, Bool.and_eq_true, decide_eq_true_eq] at h1 h2 ⊢
  rcases h1 with h1 | ⟨h1e, h1l⟩ <;> rcases h2 with h2 | ⟨h2e, h2l⟩
  · left; omega
  · left; omega
  · left; omega
  · right
    exact ⟨by omega, lexLe_trans _ _ _ h1l h2l⟩

theorem scoreRow_row0 : scoreRow row0 = Except.ok sr0 := rfl

theorem calc_lab_le_three (t e r : Cell) (l : ℚ) : calc_lab t e r l ≤ 3 := by
  unfold calc_lab
  split
  · omega
  · dsimp only
    split_ifs <;> omega

theorem strEq_true_iff (a b : String) : strEq a b = true ↔ a = b := by
  unfold strEq
  simp only [decide_eq_true_eq]
  constructor
  · intro h
    exact congrArg String.mk h
  · rintro rfl
    rfl

theorem sort_key_snd (s : String) : (sort_key_town (some s)).2 = pyStrip s := by
  unfold sort_key_town
  dsimp only
  split_ifs <;> rfl

theorem analit_round_bounds (n1 n2 n3 n4 n5 : ℕ) (h1 : n1 ≤ 3) (h2 : n2 ≤ 3) (h3 : n3 ≤ 3)
    (h4 : n4 ≤ 3) (h5 : n5 ≤ 3) :
    0 ≤ round2 (((n1 + n2 + n3 + n4 + n5 : ℕ) : ℚ) / 5 / 3) ∧
    round2 (((n1 + n2 + n3 + n4 + n5 : ℕ) : ℚ) / 5 / 3) ≤ 1 := by
  have hs : n1 + n2 + n3 + n4 + n5 ≤ 15 := by omega
  have h0 : (0 : ℚ) ≤ ((n1 + n2 + n3 + n4 + n5 : ℕ) : ℚ) / 5 / 3 := by positivity
  have hle : ((n1 + n2 + n3 + n4 + n5 : ℕ) : ℚ) / 5 / 3 ≤ 1 := by
    rw [div_div]
    rw [div_le_one (by norm_num : (0 : ℚ) < 5 * 3)]
    have hc : ((n1 + n2 + n3 + n4 + n5 : ℕ) : ℚ) ≤ (15 : ℕ) := by exact_mod_cast hs
    norm_num at hc
    push_cast
    linarith
  exact ⟨round2_nonneg h0, round2_le_one hle⟩

/-! ## Claim theorems -/

/-- C1: for every input, `calc_lab` returns 0 when the time fails to parse
as a number; 0 when the reached flag is the literal "Нет" marker; 0 when
the time exceeds the limit; and otherwise 3 for 0 errors, 2 for 1 error,
1 for 2-5 errors, 0 otherwise, the error count being coerced to 0 on parse
failure; and the five maze instances П1-П5 use the fixed time limits
35, 35, 50, 65, 125 in that order. -/
theorem C1_labyrinth_score :
    (∀ (e r : Cell) (l : ℚ) (t : Cell), pyFloat t = none → calc_lab t e r l = 0) ∧
    (∀ (t e : Cell) (l : ℚ) (s : String), stripChars s.data = "Нет".data →
      calc_lab t e (Cell.str s) l = 0) ∧
    (∀ (t e r : Cell) (l q : ℚ), pyFloat t = some (FloatV.fin q) → l < q →
      calc_lab t e r l = 0) ∧
    (∀ (t e r : Cell) (l q : ℚ), pyFloat t = some (FloatV.fin q) → reachedNo r = false →
      ¬ l < q → calc_lab t e r l = errPoints ((pyInt e).getD 0)) ∧
    (∀ (row : Row) (sr : ScoredRow), scoreRow row = Except.ok sr →
      sr.p1 = calc_lab (getOpt row "И5-1Время") (getOpt row "И5-1Ошиб")
        (getOpt row "И5-1Дошел") 35 ∧
      sr.p2 = calc_lab (getOpt row "И5-2Время") (getOpt row "И5-2Ошиб")
        (getOpt row "И5-2Дошел") 35 ∧
      sr.p3 = calc_lab (getOpt row "И5-3Время") (getOpt row "И5-3Ошиб")
        (getOpt row "И5-3Дошел") 50 ∧
      sr.p4 = calc_lab (getOpt row "И5-4Время") (getOpt row "И5-4Ошиб")
        (getOpt row "И5-4Дошел") 65 ∧
      sr.p5 = calc_lab (getOpt row "И5-5Время") (getOpt row "И5-5Ошиб")
        (getOpt row "И5-5Дошел") 125) := by
  refine ⟨?_, ?_, ?_, ?_, ?_⟩
  · intro e r l t h
    unfold calc_lab
    rw [h]
  · intro t e l s h
    have hr : reachedNo (Cell.str s) = true := by simp [reachedNo, h]
    unfold calc_lab
    cases hp : pyFloat t with
    | none => rfl
    | some tv => simp [hr]
  · intro t e r l q hp hlq
    unfold calc_lab
    rw [hp]
    dsimp only
    have hg : FloatV.gtC (FloatV.fin q) l = true := by simp [FloatV.gtC, hlq]
    by_cases hr : reachedNo r <;> simp [hr, hg]
  · intro t e r l q hp hr hnl
    unfold calc_lab
    rw [hp]
    dsimp only
    simp [hr, FloatV.gtC, hnl, errPoints]
  · intro row sr h
    obtain ⟨a1, a2, a3, b1, b2, b4, c1, c2, em, pl, so, rf, -, -, -, -, -, -, -, -, -, -,
      -, -, rfl⟩ := scoreRow_ok_elim row sr h
    exact ⟨rfl, rfl, rfl, rfl, rfl⟩

theorem C1_labyrinth_score_witness :
    calc_lab (Cell.str "abc") (Cell.num 0) (Cell.str "Да") 35 = 0 ∧
    calc_lab (Cell.num 10) (Cell.num 0) (Cell.str " Нет ") 35 = 0 ∧
    calc_lab (Cell.num 40) (Cell.num 0) (Cell.str "Да") 35 = 0 ∧
    calc_lab (Cell.num 10) (Cell.num 3) (Cell.str "Да") 35 = errPoints 3 ∧
    sr0.p1 = calc_lab (getOpt row0 "И5-1Время") (getOpt row0 "И5-1Ошиб")
      (getOpt row0 "И5-1Дошел") 35 := by
  refine ⟨C1_labyrinth_score.1 (Cell.num 0) (Cell.str "Да") 35 (Cell.str "abc") rfl,
    C1_labyrinth_score.2.1 (Cell.num 10) (Cell.num 0) 35 " Нет " (by decide),
    C1_labyrinth_score.2.2.1 (Cell.num 40) (Cell.num 0) (Cell.str "Да") 35 40 rfl
      (by norm_num),
    ?_, (C1_labyrinth_score.2.2.2.2 row0 sr0 scoreRow_row0).1⟩
  have h := C1_labyrinth_score.2.2.2.1 (Cell.num 10) (Cell.num 3) (Cell.str "Да") 35 10
    rfl (by decide) (by norm_num)
  rw [h]
  norm_num [pyInt, ratTrunc]

/-- C2: `categorize` maps undefined input to `None` and a numeric value to
below-normative when `v < 0.33`, normative when `0.33 ≤ v ≤ 0.66`, and
above-normative when `v > 0.66` (both boundary points are normative); it
is applied independently to the Когнитивное развитие, Воображение and
ЭмСоцИнтеллект composites. -/
theorem C2_categorize :
    categorize FloatV.nan = none ∧
    (∀ v : ℚ, v < 0.33 → categorize (FloatV.fin v) = some Level.below) ∧
    (∀ v : ℚ, 0.33 ≤ v → v ≤ 0.66 → categorize (FloatV.fin v) = some Level.norm) ∧
    (∀ v : ℚ, 0.66 < v → categorize (FloatV.fin v) = some Level.above) ∧
    categorize (FloatV.fin 0.33) = some Level.norm ∧
    categorize (FloatV.fin 0.66) = some Level.norm ∧
    (∀ (row : Row) (sr : ScoredRow), scoreRow row = Except.ok sr →
      sr.kognLevel = categorize sr.kognRazv ∧
      sr.voobrLevel = categorize sr.voobrItog ∧
      sr.emSotsLevel = categorize sr.emSotsInt) := by
  refine ⟨rfl, ?_, ?_, ?_, by norm_num [categorize], by norm_num [categorize], ?_⟩
  · intro v h
    simp [categorize, h]
  · intro v h1 h2
    simp [categorize, not_lt.mpr h1, h2]
  · intro v h
    have h1 : ¬ v < 0.33 := not_lt.mpr (by linarith)
    have h2 : ¬ v ≤ 0.66 := not_le.mpr h
    simp [categorize, h1, h2]
  · intro row sr h
    obtain ⟨a1, a2, a3, b1, b2, b4, c1, c2, em, pl, so, rf, -, -, -, -, -, -, -, -, -, -,
      -, -, rfl⟩ := scoreRow_ok_elim row sr h
    exact ⟨rfl, rfl, rfl⟩

theorem C2_categorize_witness :
    categorize (FloatV.fin 0.32) = some Level.below ∧
    categorize (FloatV.fin 0.67) = some Level.above ∧
    sr0.kognLevel = categorize sr0.kognRazv := by
  refine ⟨C2_categorize.2.1 0.32 (by norm_num), C2_categorize.2.2.2.1 0.67 (by norm_num),
    (C2_categorize.2.2.2.2.2.2 row0 sr0 scoreRow_row0).1⟩

/-- C10: `sort_key_town` assigns the capital rank 0 only to the exact
(stripped) literal "г.Москва"; "г. Москва" with a space falls into the
general city bucket 1; a missing name gets the sentinel (999, "") which
sorts after every ranked bucket; and names with equal ranks are ordered
lexically by their stripped text. -/
theorem C10_town_sort_key :
    (∀ s : String, (sort_key_town (some s)).1 = 0 ↔ pyStrip s = "г.Москва") ∧
    sort_key_town (some "г. Москва") = (1, "г. Москва") ∧
    sort_key_town none = (999, "") ∧
    (∀ s : String, (sort_key_town (some s)).1 < (sort_key_town none).1) ∧
    (∀ a b : String, (sort_key_town (some a)).1 = (sort_key_town (some b)).1 →
      (townLe a b ↔ lexLe (pyStrip a).data (pyStrip b).data = true)) := by
  refine ⟨?_, by decide, rfl, ?_, ?_⟩
  · intro s
    by_cases h : strEq (pyStrip s) "г.Москва" = true
    · have he := (strEq_true_iff _ _).mp h
      simp only [sort_key_town, he, iff_true]
      decide
    · have hne : ¬ pyStrip s = "г.Москва" := fun he => h ((strEq_true_iff _ _).mpr he)
      simp only [sort_key_town]
      rw [if_neg h]
      split_ifs <;> simp [hne]
  · intro s
    simp only [sort_key_town]
    split_ifs <;> norm_num
  · intro a b hrank
    unfold townLe townKeyLe
    rw [sort_key_snd, sort_key_snd, hrank]
    simp

theorem C10_town_sort_key_witness :
    (sort_key_town (some " г.Москва ")).1 = 0 ∧
    (townLe "с.Абрикосовка" "с.Борисовка" ↔
      lexLe (pyStrip "с.Абрикосовка").data (pyStrip "с.Борисовка").data = true) := by
  refine ⟨(C10_town_sort_key.1 " г.Москва ").mpr (by decide),
    C10_town_sort_key.2.2.2.2 "с.Абрикосовка" "с.Борисовка" (by decide)⟩

/-- C4 counterexample: every mapped column is absent from the empty row,
yet the scoring stage raises a `KeyError` on И1-2Связн (direct
subscription in line 216) instead of treating the missing value as a
default. -/
theorem C4_counterexample :
    lookupCol [] "И1-2Связн" = none ∧ "И1-2Связн" ∈ mappingValues ∧
    scoreRow [] = Except.error (RowErr.keyError "И1-2Связн") :=
  ⟨rfl, by decide, rfl⟩

/-- C4 (amended): the labyrinth and attention computations treat a missing
mapped column as a zero/default and never raise, but the criterion ratios
and the subtest/observation composites are read by direct subscription:
scoring cannot succeed when one of those twelve mapped columns is absent,
and a row missing И1-2Связн (the first such read) raises `KeyError`. -/
theorem C4_missing_column_policy :
    (∀ (e r : Cell) (l : ℚ), calc_lab Cell.none e r l = 0) ∧
    (∀ e : Cell, attention_index Cell.none e = attention_index (Cell.num 0) e) ∧
    (∀ rg : Cell, attention_index rg Cell.none = attention_index rg (Cell.num 0)) ∧
    (∀ c ∈ requiredColumns, c ∈ mappingValues) ∧
    (∀ (row : Row) (sr : ScoredRow) (c : String), c ∈ requiredColumns →
      lookupCol row c = none → scoreRow row ≠ Except.ok sr) ∧
    (∀ row : Row, lookupCol row "И1-2Связн" = none →
      scoreRow row = Except.error (RowErr.keyError "И1-2Связн")) := by
  refine ⟨fun e r l => rfl, fun e => rfl, fun rg => rfl, by decide, ?_,
    fun row h => scoreRow_err_first row h⟩
  intro row sr c hc hlook hok
  obtain ⟨a1, a2, a3, b1, b2, b4, c1, c2, em, pl, so, rf, h1, h2, h3, h4, h5, h6, h7, h8,
    h9, h10, h11, h12, -⟩ := scoreRow_ok_elim row sr hok
  simp only [requiredColumns, List.mem_cons, List.not_mem_nil, or_false] at hc
  rcases hc with rfl | rfl | rfl | rfl | rfl | rfl | rfl | rfl | rfl | rfl | rfl | rfl <;>
    [skip; skip; skip; skip; skip; skip; skip; skip; skip; skip; skip; skip] <;>
    first
    | (rw [getReqF, hlook] at h1; cases h1)
    | (rw [getReqF, hlook] at h2; cases h2)
    | (rw [getReqF, hlook] at h3; cases h3)
    | (rw [getReqF, hlook] at h4; cases h4)
    | (rw [getReqF, hlook] at h5; cases h5)
    | (rw [getReqF, hlook] at h6; cases h6)
    | (rw [getReqF, hlook] at h7; cases h7)
    | (rw [getReqF, hlook] at h8; cases h8)
    | (rw [getReqF, hlook] at h9; cases h9)
    | (rw [getReqF, hlook] at h10; cases h10)
    | (rw [getReqF, hlook] at h11; cases h11)
    | (rw [getReqF, hlook] at h12; cases h12)

theorem C4_missing_column_policy_witness :
    calc_lab Cell.none (Cell.num 0) (Cell.str "Да") 35 = 0 ∧
    scoreRow [("Код", Cell.num 1)] = Except.error (RowErr.keyError "И1-2Связн") ∧
    "В1" ∈ mappingValues := by
  refine ⟨C4_missing_column_policy.1 (Cell.num 0) (Cell.str "Да") 35,
    C4_missing_column_policy.2.2.2.2.2 [("Код", Cell.num 1)] rfl,
    C4_missing_column_policy.2.2.2.1 "В1" (by decide)⟩

/-- C5 counterexample: with a single record whose level is undefined, the
three level counts sum to 0, not to the total record count 1. -/
theorem C5_counterexample :
    ((levelTable [(none : Option Level)]).map (fun row => row.2.1)).sum = 0 ∧
    [(none : Option Level)].length = 1 ∧ (0 : ℕ) ≠ 1 :=
  ⟨rfl, rfl, by decide⟩

/-- C5 (amended): each level table has exactly 3 rows in the fixed order
below/normative/above, with count 0 for unattained levels and proportion
count/total where total counts every record (undefined levels included in
the denominator); the 3 counts sum to the number of records whose level is
defined (not to the total record count). -/
theorem C5_level_distribution :
    ∀ ls : List (Option Level),
      (levelTable ls).map Prod.fst = [Level.below, Level.norm, Level.above] ∧
      (∀ lv : Level,
        (lv, ls.count (some lv), (ls.count (some lv) : ℚ) / ls.length) ∈ levelTable ls) ∧
      (∀ lv : Level, some lv ∉ ls → ls.count (some lv) = 0) ∧
      ((levelTable ls).map (fun row => row.2.1)).sum = (ls.filterMap id).length := by
  intro ls
  refine ⟨by simp [levelTable], ?_, ?_, ?_⟩
  · intro lv
    cases lv <;> simp [levelTable]
  · intro lv h
    exact List.count_eq_zero.mpr h
  · have hc := count_levels ls
    simp only [levelTable, List.map_cons, List.map_nil, List.sum_cons, List.sum_nil]
    omega

theorem C5_level_distribution_witness :
    [(some Level.below : Option Level)].count (some Level.norm) = 0 ∧
    (levelTable [some Level.below]).map Prod.fst =
      [Level.below, Level.norm, Level.above] :=
  ⟨(C5_level_distribution [some Level.below]).2.2.1 Level.norm (by decide),
   (C5_level_distribution [some Level.below]).1⟩

/-- C9: `calc_lab` is total on the embedded value domain with range within
{0,1,2,3}; an unparseable error count together with a reached goal and a
time within the limit yields the maximum score 3; and the Аналит-Синт
index equals `round2(mean(П1..П5)/3)` and always lies in [0, 1]. -/
theorem C9_calc_lab_safety :
    (∀ (t e r : Cell) (l : ℚ), calc_lab t e r l ≤ 3) ∧
    (∀ (t e r : Cell) (l q : ℚ), pyInt e = none → reachedNo r = false →
      pyFloat t = some (FloatV.fin q) → ¬ l < q → calc_lab t e r l = 3) ∧
    (∀ (row : Row) (sr : ScoredRow), scoreRow row = Except.ok sr →
      sr.analitSint = round2 (((sr.p1 + sr.p2 + sr.p3 + sr.p4 + sr.p5 : ℕ) : ℚ) / 5 / 3) ∧
      0 ≤ sr.analitSint ∧ sr.analitSint ≤ 1) := by
  refine ⟨calc_lab_le_three, ?_, ?_⟩
  · intro t e r l q he hr hp hnl
    unfold calc_lab
    rw [hp]
    dsimp only
    simp [he, hr, FloatV.gtC, hnl]
  · intro row sr h
    obtain ⟨a1, a2, a3, b1, b2, b4, c1, c2, em, pl, so, rf, -, -, -, -, -, -, -, -, -, -,
      -, -, rfl⟩ := scoreRow_ok_elim row sr h
    have hb := analit_round_bounds
      (calc_lab (getOpt row "И5-1Время") (getOpt row "И5-1Ошиб") (getOpt row "И5-1Дошел") 35)
      (calc_lab (getOpt row "И5-2Время") (getOpt row "И5-2Ошиб") (getOpt row "И5-2Дошел") 35)
      (calc_lab (getOpt row "И5-3Время") (getOpt row "И5-3Ошиб") (getOpt row "И5-3Дошел") 50)
      (calc_lab (getOpt row "И5-4Время") (getOpt row "И5-4Ошиб") (getOpt row "И5-4Дошел") 65)
      (calc_lab (getOpt row "И5-5Время") (getOpt row "И5-5Ошиб") (getOpt row "И5-5Дошел") 125)
      (calc_lab_le_three _ _ _ _) (calc_lab_le_three _ _ _ _) (calc_lab_le_three _ _ _ _)
      (calc_lab_le_three _ _ _ _) (calc_lab_le_three _ _ _ _)
    exact ⟨rfl, hb.1, hb.2⟩

theorem C9_calc_lab_safety_witness :
    calc_lab (Cell.num 10) (Cell.str "много") (Cell.str "Да") 35 = 3 ∧
    0 ≤ sr0.analitSint ∧ sr0.analitSint ≤ 1 := by
  refine ⟨C9_calc_lab_safety.2.1 (Cell.num 10) (Cell.str "много") (Cell.str "Да") 35 10
    (by decide) (by decide) rfl (by norm_num), ?_, ?_⟩
  · exact (C9_calc_lab_safety.2.2 row0 sr0 scoreRow_row0).2.1
  · exact (C9_calc_lab_safety.2.2 row0 sr0 scoreRow_row0).2.2

/-- C3: the attention index is `0.5*rings - (2.8*errors)/60` with each
input coerced to 0 on parse failure (so (10,0) gives 5.0 and (0,60) gives
-2.8); МeanAttention (СредВним) is the mean of the five per-minute
indices (when all five are defined); and "Качество внимания" is 1 when
the mean is at least 6 and `round2(mean/6)` otherwise. -/
theorem C3_attention_index :
    (∀ qr qe : ℚ, attention_index (Cell.num qr) (Cell.num qe) =
      FloatV.fin (0.5 * qr - (2.8 * qe) / 60)) ∧
    (∀ c e : Cell, pyFloat c = none →
      attention_index c e = attention_index (Cell.num 0) e) ∧
    (∀ c e : Cell, pyFloat e = none →
      attention_index c e = attention_index c (Cell.num 0)) ∧
    attention_index (Cell.num 10) (Cell.num 0) = FloatV.fin 5 ∧
    attention_index (Cell.num 0) (Cell.num 60) = FloatV.fin (-2.8) ∧
    (∀ q1 q2 q3 q4 q5 : ℚ,
      nanmean [FloatV.fin q1, FloatV.fin q2, FloatV.fin q3, FloatV.fin q4, FloatV.fin q5]
        = FloatV.fin ((q1 + q2 + q3 + q4 + q5) / 5)) ∧
    (∀ v : ℚ, 6 ≤ v → attnQuality (FloatV.fin v) = FloatV.fin 1) ∧
    (∀ v : ℚ, v < 6 → attnQuality (FloatV.fin v) = FloatV.fin (round2 (v / 6))) ∧
    (∀ (row : Row) (sr : ScoredRow), scoreRow row = Except.ok sr →
      sr.vnim1 = attention_index (getOpt row "И3-1Кольца") (getOpt row "И3-1Ошиб") ∧
      sr.vnim2 = attention_index (getOpt row "И3-2Кольца") (getOpt row "И3-2Ошиб") ∧
      sr.vnim3 = attention_index (getOpt row "И3-3Кольца") (getOpt row "И3-3Ошиб") ∧
      sr.vnim4 = attention_index (getOpt row "И3-4Кольца") (getOpt row "И3-4Ошиб") ∧
      sr.vnim5 = attention_index (getOpt row "И3-5Кольца") (getOpt row "И3-5Ошиб") ∧
      sr.sredVnim = nanmean [sr.vnim1, sr.vnim2, sr.vnim3, sr.vnim4, sr.vnim5] ∧
      sr.kachVnim = attnQuality sr.sredVnim) := by
  refine ⟨fun qr qe => rfl, ?_, ?_, ?_, ?_, ?_, ?_, ?_, ?_⟩
  · intro c e h
    unfold attention_index
    rw [h]
    rfl
  · intro c e h
    unfold attention_index
    rw [h]
    rfl
  · have hv : (0.5 * (10 : ℚ) - (2.8 * 0) / 60) = 5 := by norm_num
    show FloatV.fin (0.5 * (10 : ℚ) - (2.8 * 0) / 60) = FloatV.fin 5
    rw [hv]
  · have hv : (0.5 * (0 : ℚ) - (2.8 * 60) / 60) = -2.8 := by norm_num
    show FloatV.fin (0.5 * (0 : ℚ) - (2.8 * 60) / 60) = FloatV.fin (-2.8)
    rw [hv]
  · intro q1 q2 q3 q4 q5
    have hv : finVals [FloatV.fin q1, FloatV.fin q2, FloatV.fin q3, FloatV.fin q4,
        FloatV.fin q5] = [q1, q2, q3, q4, q5] := rfl
    unfold nanmean
    rw [hv]
    simp only [if_neg (by simp : ¬ ([q1, q2, q3, q4, q5] : List ℚ) = [])]
    simp [List.sum_cons]
    ring_nf
  · intro v h
    simp [attnQuality, FloatV.geC, h]
  · intro v h
    simp [attnQuality, FloatV.geC, not_le.mpr h, FloatV.round2F, FloatV.divC]
  · intro row sr h
    obtain ⟨a1, a2, a3, b1, b2, b4, c1, c2, em, pl, so, rf, -, -, -, -, -, -, -, -, -, -,
      -, -, rfl⟩ := scoreRow_ok_elim row sr h
    exact ⟨rfl, rfl, rfl, rfl, rfl, rfl, rfl⟩

theorem C3_attention_index_witness :
    attention_index (Cell.str "пять") (Cell.num 60) =
      attention_index (Cell.num 0) (Cell.num 60) ∧
    attnQuality (FloatV.fin 7) = FloatV.fin 1 ∧
    attnQuality (FloatV.fin 3) = FloatV.fin (round2 (3 / 6)) ∧
    nanmean [FloatV.fin 1, FloatV.fin 2, FloatV.fin 3, FloatV.fin 4, FloatV.fin 5]
      = FloatV.fin ((1 + 2 + 3 + 4 + 5) / 5) ∧
    sr0.kachVnim = attnQuality sr0.sredVnim := by
  refine ⟨C3_attention_index.2.1 (Cell.str "пять") (Cell.num 60) (by decide),
    C3_attention_index.2.2.2.2.2.2.1 7 (by norm_num),
    C3_attention_index.2.2.2.2.2.2.2.1 3 (by norm_num),
    C3_attention_index.2.2.2.2.2.1 1 2 3 4 5,
    ((C3_attention_index.2.2.2.2.2.2.2.2 row0 sr0 scoreRow_row0).2.2.2.2.2.2)⟩

theorem takeWhile_all_cons (p : Char → Bool) (a : List Char) (x : Char) (t : List Char)
    (ha : ∀ c ∈ a, p c = true) (hx : p x = false) :
    (a ++ x :: t).takeWhile p = a ∧ (a ++ x :: t).dropWhile p = x :: t := by
  induction a with
  | nil => simp [List.takeWhile_cons, List.dropWhile_cons, hx]
  | cons c cs ih =>
      have hc : p c = true := ha c (List.mem_cons_self c cs)
      have ih2 := ih (fun d hd => ha d (List.mem_cons_of_mem c hd))
      simp [List.takeWhile_cons, List.dropWhile_cons, hc, ih2.1, ih2.2]

/-- C7: the entry point raises the filename `ValueError` (before reading
any data: uniformly in the table) exactly when the filename has no
`(\d+)-(\d+)` prefix; on a match the two digit groups become the site and
assessment identifiers, so "5-31-Razvitie.xlsx" parses to ("5", "31")
while "bad.xlsx" always raises the filename-format error. -/
theorem C7_filename_contract :
    (∀ s : String, (∃ pd, parseFilename s = some pd) ↔ fnamePatternSpec s) ∧
    (∀ (name : String) (t : List Row), parseFilename name = none →
      process_excel name t = Except.error (PyErr.valueError badNameMsg)) ∧
    (∀ (name : String) (t : List Row) (m : String),
      process_excel name t = Except.error (PyErr.valueError m) →
      parseFilename name = none ∧ m = badNameMsg) ∧
    parseFilename "5-31-Razvitie.xlsx" = some ("5", "31") ∧
    (∀ t : List Row, process_excel "bad.xlsx" t =
      Except.error (PyErr.valueError badNameMsg)) := by
  refine ⟨?_, ?_, ?_, by decide, fun t => rfl⟩
  · intro s
    constructor
    · rintro ⟨pd, h⟩
      unfold parseFilename at h
      by_cases ha : s.data.takeWhile Char.isDigit = []
      · simp [ha] at h
      · rw [if_neg ha] at h
        split at h
        · rename_i rest heq
          by_cases hb : rest.takeWhile Char.isDigit = []
          · simp [hb] at h
          · have hsplit : s.data = s.data.takeWhile Char.isDigit ++ ('-' :: rest) := by
              conv_lhs => rw [← List.takeWhile_append_dropWhile Char.isDigit s.data]
              rw [heq]
            refine ⟨s.data.takeWhile Char.isDigit, rest.takeWhile Char.isDigit,
              rest.dropWhile Char.isDigit, ?_, ha, hb,
              fun d hd => List.mem_takeWhile_imp hd,
              fun d hd => List.mem_takeWhile_imp hd⟩
            conv_lhs => rw [hsplit]
            rw [List.takeWhile_append_dropWhile Char.isDigit rest]
        · simp at h
    · rintro ⟨a, b, rest, hs, ha, hb, hda, hdb⟩
      have h1 := takeWhile_all_cons Char.isDigit a '-' (b ++ rest) hda (by decide)
      unfold parseFilename
      rw [hs, h1.1, h1.2, if_neg ha]
      cases b with
      | nil => exact absurd rfl hb
      | cons cb bs =>
          have hcb : Char.isDigit cb = true := hdb cb (List.mem_cons_self _ _)
          simp only [List.cons_append, List.takeWhile_cons, hcb, if_true]
          have hne : ¬ (cb :: List.takeWhile Char.isDigit (bs ++ rest) = []) := by simp
          exact ⟨_, by rw [if_neg hne]⟩
  · intro name t h
    unfold process_excel
    rw [h]
  · intro name t m h
    unfold process_excel at h
    cases hp : parseFilename name with
    | none =>
        rw [hp] at h
        simp only [Except.error.injEq, PyErr.valueError.injEq] at h
        exact ⟨rfl, h.symm⟩
    | some pd =>
        obtain ⟨p, d⟩ := pd
        rw [hp] at h
        cases hr : runPipeline t with
        | error e =>
            rw [hr] at h
            simp at h
        | ok tabs =>
            rw [hr] at h
            simp at h

theorem C7_filename_contract_witness :
    fnamePatternSpec "5-31-Razvitie.xlsx" ∧
    process_excel "bad.xlsx" [] = Except.error (PyErr.valueError badNameMsg) ∧
    parseFilename "bad.xlsx" = none := by
  refine ⟨(C7_filename_contract.1 "5-31-Razvitie.xlsx").mp ⟨("5", "31"), by decide⟩,
    C7_filename_contract.2.2.2.2 [],
    (C7_filename_contract.2.2.1 "bad.xlsx" [] badNameMsg
      (C7_filename_contract.2.2.2.2 [])).1⟩

theorem sum_map_natCast {α : Type} (l : List α) (f : α → ℕ) :
    (l.map (fun x => (f x : ℚ))).sum = (((l.map f).sum : ℕ) : ℚ) := by
  induction l with
  | nil => simp
  | cons a t ih =>
      simp only [List.map_cons, List.sum_cons, ih]
      push_cast
      ring

theorem map_fst_pairs {α β : Type} (l : List α) (f : α → β) :
    (l.map (fun a => (a, f a))).map Prod.fst = l := by
  induction l with
  | nil => rfl
  | cons a t ih => simp [ih]

theorem map_snd2_pairs {α β γ : Type} (l : List α) (f : α → β) (g : α → γ) :
    (l.map (fun a => (a, f a, g a))).map (fun row => row.2.2) = l.map g := by
  induction l with
  | nil => rfl
  | cons a t ih => simp [ih]

/-- C8 counterexample: one record whose age label is missing is a
non-empty collection, yet the age table is empty and its percentages sum
to 0, not 1. -/
theorem C8_counterexample :
    ([Cell.nan] : List Cell) ≠ [] ∧ ageTable [Cell.nan] = [] ∧
    ((ageTable [Cell.nan]).map (fun row => row.2.2)).sum = 0 ∧ (0 : ℚ) ≠ 1 :=
  ⟨by decide, rfl, rfl, by norm_num⟩

/-- C8 (amended): whenever at least one record has a non-missing age
label, the age table groups by the raw label, each percentage is
count/grand-total so the percentages sum to exactly 1, rows are sorted by
the integer parsed from the start of the label, and a label whose prefix
fails to parse gets the sentinel key 999. -/
theorem C8_age_distribution :
    ∀ ages : List Cell, ages.filter (fun c => !isNA c) ≠ [] →
      ((ageTable ages).map (fun row => row.2.2)).sum = 1 ∧
      (∀ L cnt pct, (L, cnt, pct) ∈ ageTable ages →
        cnt = (ages.filter (fun c => !isNA c)).count L ∧
        pct = ((ages.filter (fun c => !isNA c)).count L : ℚ) /
          (ages.filter (fun c => !isNA c)).length) ∧
      List.Sorted ageLe ((ageTable ages).map Prod.fst) ∧
      (∀ s : String, ageParse s = none → extract_age (Cell.str s) = 999) ∧
      (∀ L : Cell, L ∈ (ageTable ages).map Prod.fst ↔
        L ∈ ages.filter (fun c => !isNA c)) := by
  intro ages hne
  have hperm : (List.insertionSort ageLe
      (List.insertionSort (cntGe (ages.filter (fun c => !isNA c)))
        (ages.filter (fun c => !isNA c)).dedup)).Perm
      (ages.filter (fun c => !isNA c)).dedup :=
    (List.perm_insertionSort ageLe _).trans (List.perm_insertionSort (cntGe _) _)
  have hmapfst : (ageTable ages).map Prod.fst = List.insertionSort ageLe
      (List.insertionSort (cntGe (ages.filter (fun c => !isNA c)))
        (ages.filter (fun c => !isNA c)).dedup) := by
    simp only [ageTable]
    exact map_fst_pairs _ _
  refine ⟨?_, ?_, ?_, ?_, ?_⟩
  · have h1 : ((ageTable ages).map (fun row => row.2.2)).sum =
        ((List.insertionSort ageLe
          (List.insertionSort (cntGe (ages.filter (fun c => !isNA c)))
            (ages.filter (fun c => !isNA c)).dedup)).map
          (fun L => ((ages.filter (fun c => !isNA c)).count L : ℚ) /
            ((ages.filter (fun c => !isNA c)).length : ℚ))).sum := by
      simp only [ageTable]
      rw [map_snd2_pairs]
    have h2 : (fun L => ((ages.filter (fun c => !isNA c)).count L : ℚ) /
        ((ages.filter (fun c => !isNA c)).length : ℚ)) =
        (fun x : ℚ => x / ((ages.filter (fun c => !isNA c)).length : ℚ)) ∘
          (fun L => ((ages.filter (fun c => !isNA c)).count L : ℚ)) := rfl
    rw [h1, h2, ← List.map_map, sum_map_div,
      (hperm.map (fun L => ((ages.filter (fun c => !isNA c)).count L : ℚ))).sum_eq,
      sum_map_natCast, List.sum_map_count_dedup_eq_length]
    have hlen : ((ages.filter (fun c => !isNA c)).length : ℚ) ≠ 0 := by
      exact_mod_cast (List.length_pos.mpr hne).ne'
    exact div_self hlen
  · intro L cnt pct hmem
    simp only [ageTable, List.mem_map] at hmem
    obtain ⟨L2, hL2, heq⟩ := hmem
    injection heq with h1 hrest
    injection hrest with h2 h3
    subst h1
    exact ⟨h2.symm, h3.symm⟩
  · rw [hmapfst]
    exact List.sorted_insertionSort ageLe _
  · intro s h
    simp [extract_age, cellStr, h]
  · intro L
    rw [hmapfst]
    simp only [List.mem_insertionSort, List.mem_dedup]

theorem C8_age_distribution_witness :
    ((ageTable [Cell.str "6-7 лет", Cell.str "5-6 лет", Cell.str "5-6 лет"]).map
      (fun row => row.2.2)).sum = 1 ∧
    extract_age (Cell.str "пять лет") = 999 ∧
    List.Sorted ageLe ((ageTable [Cell.str "6-7 лет", Cell.str "5-6 лет",
      Cell.str "5-6 лет"]).map Prod.fst) := by
  refine ⟨(C8_age_distribution [Cell.str "6-7 лет", Cell.str "5-6 лет", Cell.str "5-6 лет"]
      (by decide)).1,
    (C8_age_distribution [Cell.str "5"] (by decide)).2.2.2.1 "пять лет" (by decide),
    (C8_age_distribution [Cell.str "6-7 лет", Cell.str "5-6 лет", Cell.str "5-6 лет"]
      (by decide)).2.2.1⟩

/-- C6: the town summary is built from the towns extracted from the
organisation names, counting distinct organisation values per town,
keeping only defined towns with a positive count, sorting by the town
sort-key, and appending a single Итого row whose count is the sum of all
other rows' counts. -/
theorem C6_town_summary :
    ∀ orgs : List Cell,
      towns_with_total orgs =
        townRows orgs ++ [("Итого", ((townRows orgs).map Prod.snd).sum)] ∧
      (∀ t cnt, (t, cnt) ∈ townRows orgs → cnt = orgCount orgs t ∧ 0 < cnt) ∧
      List.Sorted townLe ((townRows orgs).map Prod.fst) ∧
      (∀ t : String, t ∈ (townRows orgs).map Prod.fst ↔
        some t ∈ orgs.map extract_town) := by
  intro orgs
  have hmapfst : (townRows orgs).map Prod.fst =
      List.insertionSort townLe (townList orgs) := by
    simp only [townRows]
    exact map_fst_pairs _ _
  refine ⟨rfl, ?_, ?_, ?_⟩
  · intro t cnt hmem
    simp only [townRows, List.mem_map] at hmem
    obtain ⟨t2, ht2, heq⟩ := hmem
    injection heq with h1 h2
    rw [← h1, ← h2]
    refine ⟨rfl, ?_⟩
    have ht : t2 ∈ townList orgs := (List.mem_insertionSort townLe).mp ht2
    rw [townList, List.mem_dedup, List.mem_filterMap] at ht
    obtain ⟨c, hc, hct⟩ := ht
    have hcf : c ∈ orgs.filter (fun d => extract_town d = some t2) := by
      simp [List.mem_filter, hc, hct]
    have hmem2 : c ∈ (orgs.filter (fun d => extract_town d = some t2)).dedup :=
      List.mem_dedup.mpr hcf
    have hnil : (orgs.filter (fun d => extract_town d = some t2)).dedup ≠ [] := by
      intro hn
      rw [hn] at hmem2
      exact absurd hmem2 (List.not_mem_nil c)
    exact List.length_pos.mpr hnil
  · rw [hmapfst]
    exact @List.sorted_insertionSort String townLe _ ⟨townLe_total⟩
      ⟨townLe_trans⟩ (townList orgs)
  · intro t
    rw [hmapfst]
    simp only [List.mem_insertionSort, townList, List.mem_dedup, List.mem_filterMap,
      List.mem_map]

theorem C6_town_summary_witness :
    towns_with_total [Cell.str "Школа №1 (г.Казань)", Cell.str "Сад (с.Ивановка; юг)",
      Cell.str "Школа №2 (г.Казань)"] =
      townRows [Cell.str "Школа №1 (г.Казань)", Cell.str "Сад (с.Ивановка; юг)",
        Cell.str "Школа №2 (г.Казань)"] ++
      [("Итого", ((townRows [Cell.str "Школа №1 (г.Казань)", Cell.str "Сад (с.Ивановка; юг)",
        Cell.str "Школа №2 (г.Казань)"]).map Prod.snd).sum)] ∧
    (2 = orgCount [Cell.str "Школа №1 (г.Казань)", Cell.str "Сад (с.Ивановка; юг)",
      Cell.str "Школа №2 (г.Казань)"] "г.Казань" ∧ 0 < 2) ∧
    ("с.Ивановка" ∈ (townRows [Cell.str "Школа №1 (г.Казань)", Cell.str "Сад (с.Ивановка; юг)",
      Cell.str "Школа №2 (г.Казань)"]).map Prod.fst) := by
  refine ⟨(C6_town_summary _).1,
    (C6_town_summary _).2.1 "г.Казань" 2 (by decide),
    ((C6_town_summary [Cell.str "Школа №1 (г.Казань)", Cell.str "Сад (с.Ивановка; юг)",
      Cell.str "Школа №2 (г.Казань)"]).2.2.2 "с.Ивановка").mpr (by decide)⟩
